import Mathlib

/-!
Verification of the gw2_ap_yaml_generator aggregation pipeline (src/main.rs).

The pipeline fetches characters, seasons and the quest catalog from a remote
API, then folds per-character progress into a nested weighted-option document.
We shallowly embed the data model and the aggregation logic:

* Rust `HashMap`s that are only ever read through key lookup are embedded as
  association lists (`alookup` / `hashInsert`); `HashMap::insert` replaces an
  existing binding, which `hashInsert` models by removing the old binding and
  prepending the new one (extensionally identical for lookups).
* Panics (`HashMap` indexing with an absent key, `Option::unwrap` on `None`,
  `OptionValue::insert` on a non-`Table` variant, `usize` subtraction
  overflow) are modelled with `Except PanicKind`; an `Except.error` result is
  a run that aborts before the output file is written.
* Fixed remote responses are passed in as lookup functions / lists, so the
  network boundary is a pure parameter of the model.
-/

/-- The distinct panic sites of the aggregation path in `main.rs`. -/
inductive PanicKind
  /-- `Option::unwrap` on `None` (the `get_mut(..).unwrap()` chains). -/
  | unwrapNone
  /-- `OptionValue::insert` called on a non-`Table` variant (main.rs line 50). -/
  | insertNotTable
  /-- `&seasons[storyline.id()]` indexing with an id absent from the map (line 506). -/
  | seasonMissing
  /-- `&quests[q]` indexing with a completed quest id absent from the catalog (line 509). -/
  | questMissing
  /-- `storyline.max_quests() - completed_count` underflow on `usize` (line 532). -/
  | maxQuestsUnderflow
deriving DecidableEq, Repr

/-- Association-list lookup; the reading interface of the embedded `HashMap`s. -/
def alookup {κ ν : Type} [DecidableEq κ] : List (κ × ν) → κ → Option ν
  | [], _ => none
  | p :: t, k => if p.1 = k then some p.2 else alookup t k

/-- `HashMap::insert`: any previous binding of `k` is replaced by `v`. -/
def hashInsert {κ ν : Type} [DecidableEq κ] (m : List (κ × ν)) (k : κ) (v : ν) :
    List (κ × ν) :=
  (k, v) :: m.filter (fun p => decide (p.1 ≠ k))

/-- `enum OptionValue` (main.rs lines 40-44): a scalar string or a weight table. -/
inductive OptionValue
  | Value : String → OptionValue
  | Table : List (String × Nat) → OptionValue
deriving DecidableEq, Repr

/-- `OptionValue::insert` (main.rs lines 46-53): inserting into a `Value`
variant panics with "Can only insert into a table". -/
def OptionValue.insert : OptionValue → String → Nat → Except PanicKind OptionValue
  | .Table map, value, weight => .ok (.Table (hashInsert map value weight))
  | _, _, _ => .error .insertNotTable

/-- `struct Trigger` (main.rs lines 64-70). -/
structure Trigger where
  option_category : String
  option_name : String
  option_result : String
  options : List (String × List (String × OptionValue))
deriving DecidableEq, Repr

/-- `Trigger::new` (main.rs lines 72-81): category is always "Guild Wars 2". -/
def Trigger.new (option_name option_result : String) : Trigger :=
  { option_category := "Guild Wars 2"
    option_name := option_name
    option_result := option_result
    options := [] }

/-- `trigger.options.get_mut(group).unwrap().insert(key, v)`: the `unwrap`
panics when `group` is absent. -/
def Trigger.insertOption (t : Trigger) (group key : String) (v : OptionValue) :
    Except PanicKind Trigger :=
  match alookup t.options group with
  | none => .error .unwrapNone
  | some inner =>
      .ok { t with options := hashInsert t.options group (hashInsert inner key v) }

/-- `trigger.options.get_mut(group).unwrap().get_mut(key).unwrap().insert(value, weight)`:
the two `unwrap`s panic on absent keys, and the final insert is
`OptionValue::insert`, which panics on a non-`Table` variant. -/
def Trigger.insertIntoTable (t : Trigger) (group key value : String) (weight : Nat) :
    Except PanicKind Trigger :=
  match alookup t.options group with
  | none => .error .unwrapNone
  | some inner =>
      match alookup inner key with
      | none => .error .unwrapNone
      | some ov =>
          match ov.insert value weight with
          | .error e => .error e
          | .ok ov2 =>
              .ok { t with options := hashInsert t.options group (hashInsert inner key ov2) }

/-- `struct Character` (main.rs lines 256-261). -/
structure Character where
  name : String
  race : String
  profession : String
deriving DecidableEq, Repr

/-- `struct CharacterInput` (main.rs lines 91-96); `weight` defaults to 50 at
deserialization, which is outside the modelled core. -/
structure CharacterInput where
  weight : Nat
  storyline : Option (List (String × Nat))
deriving DecidableEq, Repr

/-- `struct Season` (main.rs lines 339-344): the `stories` field is the set of
story ids, embedded as a list used only through `contains`. -/
structure Season where
  id : String
  story_ids : List Nat
deriving DecidableEq, Repr

/-- `struct Quest` (main.rs lines 346-352). -/
structure Quest where
  id : Nat
  name : String
  story_id : Nat
deriving DecidableEq, Repr

/-- `const fn default_weight()` (main.rs line 90). -/
def default_weight : Nat := 50

/-- `enum Storyline` (main.rs lines 263-275), ten fixed variants. -/
inductive Storyline
  | Core
  | Season1
  | Season2
  | HeartOfThorns
  | Season3
  | PathOfFire
  | Season4
  | IcebroodSaga
  | EndOfDragons
  | SecretsOfTheObscure
deriving DecidableEq, Repr

/-- `Storyline::iter()` from `#[derive(EnumIter)]`: the variants in declaration
order. -/
def Storyline.iter : List Storyline :=
  [.Core, .Season1, .Season2, .HeartOfThorns, .Season3,
   .PathOfFire, .Season4, .IcebroodSaga, .EndOfDragons, .SecretsOfTheObscure]

/-- `Storyline::id` (main.rs lines 278-291). -/
def Storyline.id : Storyline → String
  | .Core => "215AAA0F-CDAC-4F93-86DA-C155A99B5784"
  | .Season1 => "A49D0CD7-E725-4141-8E10-180F1CED7CAF"
  | .Season2 => "A515A1D3-4BD7-4594-AE30-2C5D05FF5960"
  | .HeartOfThorns => "B8901E58-DC9D-4525-ADB2-79C93593291E"
  | .Season3 => "09766A86-D88D-4DF2-9385-259E9A8CA583"
  | .PathOfFire => "EAB597C0-C484-4FD3-9430-31433BAC81B6"
  | .Season4 => "C22AFD21-667A-4AA8-8210-AC74EAEE58BB"
  | .IcebroodSaga => "EDCAE800-302A-4D9B-8331-3CC769ADA0B3"
  | .EndOfDragons => "D1B709AB-92B6-4EE9-8B40-2B7C628E5022"
  | .SecretsOfTheObscure => "AEE99452-D323-4ABB-8F49-D7C0A752CBD1"

/-- `Storyline::snake_case` (main.rs lines 293-306). -/
def Storyline.snake_case : Storyline → String
  | .Core => "core"
  | .Season1 => "season_1"
  | .Season2 => "season_2"
  | .HeartOfThorns => "heart_of_thorns"
  | .Season3 => "season_3"
  | .PathOfFire => "path_of_fire"
  | .Season4 => "season_4"
  | .IcebroodSaga => "icebrood_saga"
  | .EndOfDragons => "end_of_dragons"
  | .SecretsOfTheObscure => "secrets_of_the_obscure"

/-- `Storyline::default_weight` (main.rs lines 308-321). -/
def Storyline.default_weight : Storyline → Nat
  | .Core => 1
  | .Season1 => 2
  | .Season2 => 4
  | .HeartOfThorns => 8
  | .Season3 => 16
  | .PathOfFire => 32
  | .Season4 => 64
  | .IcebroodSaga => 128
  | .EndOfDragons => 256
  | .SecretsOfTheObscure => 512

/-- `Storyline::max_quests` (main.rs lines 323-336). -/
def Storyline.max_quests : Storyline → Nat
  | .Core => 49
  | .Season1 => 30
  | .Season2 => 32
  | .HeartOfThorns => 16
  | .Season3 => 36
  | .PathOfFire => 16
  | .Season4 => 30
  | .IcebroodSaga => 41
  | .EndOfDragons => 27
  | .SecretsOfTheObscure => 20

/-- `storyline.max_quests() - completed_count` (main.rs line 532): both
operands are `usize`, so the subtraction cannot produce a negative value; when
the subtrahend exceeds the minuend the operation is an arithmetic-overflow
program error in Rust (a panic with overflow checks on; in release builds it
wraps to a value near 2^64, still non-negative). Modelled as the checked
subtraction. -/
def usizeSub (m c : Nat) : Except PanicKind Nat :=
  if c ≤ m then .ok (m - c) else .error .maxQuestsUnderflow

/-- `completed.iter().filter(|&q| season.story_ids.contains(&quests[q].story_id)).count()`
(main.rs line 509): `&quests[q]` indexes the catalog map and panics when a
completed quest id has no catalog entry. -/
def completedCountRun (questOf : Nat → Option Quest) (season : Season)
    (completed : List Nat) : Except PanicKind Nat :=
  completed.foldl
    (fun acc q =>
      match acc, questOf q with
      | .ok n, some quest =>
          .ok (if season.story_ids.contains quest.story_id then n + 1 else n)
      | .ok _, none => .error .questMissing
      | .error e, _ => .error e)
    (.ok 0)

/-- Modelled from the spec: the completion count as the specification describes
it — "quest ids missing from the catalog are excluded and do not throw". Used
only to compare the specified behaviour against `completedCountRun`. -/
def specCompletedCount (questOf : Nat → Option Quest) (season : Season)
    (completed : List Nat) : Nat :=
  (completed.filter
    (fun q =>
      match questOf q with
      | some quest => season.story_ids.contains quest.story_id
      | none => false)).length

/-- The per-storyline completion count (main.rs lines 507-514): zero when no
completed-quest set is available. -/
def countForStoryline (questOf : Nat → Option Quest) (season : Season)
    (completed : Option (List Nat)) : Except PanicKind Nat :=
  match completed with
  | some cs => completedCountRun questOf season cs
  | none => .ok 0

/-- The character resolution branch (main.rs lines 460-479): a character found
remotely yields its profession, race and the fetched completed-quest set; a
missing character yields the designed fallback `("random", "random", None)`. -/
def resolveCharacter (characterOf : String → Option Character)
    (completedOf : String → List Nat) (character_name : String) :
    String × String × Option (List Nat) :=
  match characterOf character_name with
  | some character => (character.profession, character.race, some (completedOf character_name))
  | none => ("random", "random", none)

/-- The per-storyline weight resolution (main.rs lines 495-504): with an
explicit override mapping, a storyline is included only when its snake-case
key is present (otherwise the loop `continue`s); with no mapping, the static
default weight is used. -/
def storylineWeight (storyline_options : Option (List (String × Nat)))
    (storyline : Storyline) : Option Nat :=
  match storyline_options with
  | some options => alookup options storyline.snake_case
  | none => some storyline.default_weight

/-- Closed form of the storyline sub-trigger built at main.rs lines 529-534;
`storylineStep` is proved to produce exactly this value. -/
def mkQuestTrigger (storyline : Storyline) (key : String) (mq : Nat) : Trigger :=
  { option_category := "Guild Wars 2"
    option_name := "storyline"
    option_result := key
    options :=
      [("Guild Wars 2",
        [("storyline", .Value storyline.snake_case),
         ("max_quests", .Value (toString mq))])] }

/-- One iteration of the storyline loop (main.rs lines 493-537). The state is
the character trigger being mutated plus the accumulated `storyline_triggers`
vector. -/
def storylineStep (seasonOf : String → Option Season) (questOf : Nat → Option Quest)
    (completed_quest_ids : Option (List Nat)) (character_name : String)
    (storyline_options : Option (List (String × Nat)))
    (state : Trigger × List Trigger) (storyline : Storyline) :
    Except PanicKind (Trigger × List Trigger) :=
  match storylineWeight storyline_options storyline with
  | none => .ok state
  | some weight =>
      match seasonOf storyline.id with
      | none => .error .seasonMissing
      | some season =>
          match countForStoryline questOf season completed_quest_ids with
          | .error e => .error e
          | .ok completed_count =>
              let intermediate_option_result :=
                storyline.snake_case ++ " " ++ character_name
              match state.1.insertIntoTable "Guild Wars 2" "storyline"
                  intermediate_option_result weight with
              | .error e => .error e
              | .ok trigger =>
                  match usizeSub storyline.max_quests completed_count with
                  | .error e => .error e
                  | .ok mq =>
                      let quest_trigger := Trigger.new "storyline" intermediate_option_result
                      let quest_trigger :=
                        { quest_trigger with
                            options := hashInsert quest_trigger.options "Guild Wars 2" [] }
                      match quest_trigger.insertOption "Guild Wars 2" "max_quests"
                          (.Value (toString mq)) with
                      | .error e => .error e
                      | .ok quest_trigger =>
                          match quest_trigger.insertOption "Guild Wars 2" "storyline"
                              (.Value storyline.snake_case) with
                          | .error e => .error e
                          | .ok quest_trigger =>
                              .ok (trigger, state.2 ++ [quest_trigger])

/-- Per-character aggregation (main.rs lines 446-537 without the character
weight entry, which `aggregateFrom` handles): builds the character trigger,
resolves the character, fills the profession/race sub-tables and runs the
storyline loop. Returns the character trigger and its storyline sub-triggers. -/
def processCharacter (seasonOf : String → Option Season) (questOf : Nat → Option Quest)
    (characterOf : String → Option Character) (completedOf : String → List Nat)
    (character_name : String) (character_options : CharacterInput) :
    Except PanicKind (Trigger × List Trigger) :=
  let trigger := Trigger.new "character" character_name
  let trigger := { trigger with options := hashInsert trigger.options "Guild Wars 2" [] }
  match trigger.insertOption "Guild Wars 2" "character_profession" (.Table []) with
  | .error e => .error e
  | .ok trigger =>
  match trigger.insertOption "Guild Wars 2" "character_race" (.Table []) with
  | .error e => .error e
  | .ok trigger =>
  match resolveCharacter characterOf completedOf character_name with
  | (profession, race, completed_quest_ids) =>
  match trigger.insertIntoTable "Guild Wars 2" "character_profession" profession default_weight with
  | .error e => .error e
  | .ok trigger =>
  match trigger.insertIntoTable "Guild Wars 2" "character_race" race default_weight with
  | .error e => .error e
  | .ok trigger =>
  match trigger.insertOption "Guild Wars 2" "storyline" (.Table []) with
  | .error e => .error e
  | .ok trigger =>
  Storyline.iter.foldlM
    (storylineStep seasonOf questOf completed_quest_ids character_name
      character_options.storyline)
    (trigger, [])

/-- Closed form of the character trigger as it stands when the storyline loop
begins (main.rs lines 451-489): profession and race sub-tables hold the single
resolved entry with the default weight, and the storyline sub-table is empty;
`processCharacter` is proved to reach exactly this state. -/
def initialCharTrigger (character_name profession race : String) : Trigger :=
  { option_category := "Guild Wars 2"
    option_name := "character"
    option_result := character_name
    options :=
      [("Guild Wars 2",
        [("storyline", .Table []),
         ("character_race", .Table [(race, default_weight)]),
         ("character_profession", .Table [(profession, default_weight)])])] }

/-- `struct OutputOptions` (main.rs lines 128-149), maps embedded as
association lists. -/
structure OutputOptions where
  progression_balancing : List (String × Nat)
  accessibility : List (String × Nat)
  character : List (String × Nat)
  triggers : List Trigger
  character_profession : List (String × Nat)
  character_race : List (String × Nat)
  starting_mainhand_weapon : List (String × Nat)
  starting_offhand_weapon : List (String × Nat)
  group_content : List (String × Nat)
  include_competitive : List (String × Nat)
  achievement_weight : List (String × Nat)
  quest_weight : List (String × Nat)
  training_weight : List (String × Nat)
  world_boss_weight : List (String × Nat)
  storyline : List (String × Nat)
  required_mist_fragments : Nat
  extra_mist_fragments : Nat
  heal_skill : List (String × Nat)
  gear_slots : List (String × Nat)
deriving DecidableEq, Repr

/-- `OutputOptions::new` (main.rs lines 151-175). -/
def OutputOptions.new : OutputOptions :=
  { progression_balancing := []
    accessibility := []
    character := []
    triggers := []
    character_profession := []
    character_race := []
    starting_mainhand_weapon := []
    starting_offhand_weapon := []
    group_content := []
    include_competitive := []
    achievement_weight := []
    quest_weight := []
    training_weight := []
    world_boss_weight := []
    storyline := []
    required_mist_fragments := 10
    extra_mist_fragments := 5
    heal_skill := []
    gear_slots := [] }

/-- `OutputOptions::default` (main.rs lines 177-254): the static default
entries, written as literal lists in the source's insertion order (all keys
within each table are distinct, so the sequence of `HashMap::insert` calls is
the literal table). -/
def OutputOptions.defaultValue : OutputOptions :=
  { OutputOptions.new with
    progression_balancing :=
      [("random", 0), ("random-low", 0), ("random-high", 0),
       ("disabled", 0), ("normal", 50), ("extreme", 0)]
    accessibility := [("locations", 0), ("items", 50), ("minimal", 0)]
    starting_mainhand_weapon :=
      [("none", 0), ("axe", 0), ("dagger", 0), ("mace", 0), ("pistol", 0),
       ("sword", 0), ("scepter", 0), ("greatsword", 0), ("hammer", 0),
       ("longbow", 0), ("rifle", 0), ("short_bow", 0), ("staff", 0),
       ("random_proficient", 50), ("random_proficient_one_handed", 0),
       ("random_proficient_two_handed", 0)]
    starting_offhand_weapon :=
      [("none", 0), ("scepter", 0), ("focus", 0), ("shield", 0),
       ("torch", 0), ("warhorn", 0), ("random_proficient", 50)]
    group_content := [("none", 50), ("five_man", 25), ("ten_man", 10)]
    include_competitive := [("false", 50), ("true", 10)]
    achievement_weight :=
      [("500", 50), ("random", 0), ("random-low", 0), ("random-high", 0)]
    quest_weight :=
      [("100", 50), ("random", 0), ("random-low", 0), ("random-high", 0)]
    training_weight :=
      [("100", 50), ("random", 0), ("random-low", 0), ("random-high", 0)]
    world_boss_weight :=
      [("250", 50), ("random", 0), ("random-low", 0), ("random-high", 0)]
    heal_skill := [("randomize", 1), ("early", 10), ("starting", 50)]
    gear_slots := [("randomize", 5), ("early", 50), ("starting", 10)] }

/-- `struct Output` (main.rs lines 98-106). -/
structure Output where
  name : String
  description : String
  game : String
  game_options : OutputOptions
deriving DecidableEq, Repr

/-- `Output::new` (main.rs lines 108-117). -/
def Output.new : Output :=
  { name := "Player{number}"
    description := "Customized Guild Wars 2 Template"
    game := "Guild Wars 2"
    game_options := OutputOptions.new }

/-- `Output::default` (main.rs lines 119-126). -/
def Output.defaultValue : Output :=
  { Output.new with game_options := OutputOptions.defaultValue }

/-- The character aggregation loop (main.rs lines 445-541), starting from an
already-built output document: for each selected character, insert its weight
entry, then append the character trigger followed by its storyline
sub-triggers. -/
def aggregateFrom (seasonOf : String → Option Season) (questOf : Nat → Option Quest)
    (characterOf : String → Option Character) (completedOf : String → List Nat)
    (output : Output) : List (String × CharacterInput) → Except PanicKind Output
  | [] => .ok output
  | (character_name, character_options) :: rest =>
      let output :=
        { output with
            game_options :=
              { output.game_options with
                  character :=
                    hashInsert output.game_options.character character_name
                      character_options.weight } }
      match processCharacter seasonOf questOf characterOf completedOf
          character_name character_options with
      | .error e => .error e
      | .ok (trigger, storyline_triggers) =>
          aggregateFrom seasonOf questOf characterOf completedOf
            { output with
                game_options :=
                  { output.game_options with
                      triggers :=
                        output.game_options.triggers ++ [trigger] ++ storyline_triggers } }
            rest

/-- The whole aggregation stage (main.rs lines 444-541): fold the selected
characters, in their input iteration order, over the pre-populated default
document. -/
def aggregate (seasonOf : String → Option Season) (questOf : Nat → Option Quest)
    (characterOf : String → Option Character) (completedOf : String → List Nat)
    (inputChars : List (String × CharacterInput)) : Except PanicKind Output :=
  aggregateFrom seasonOf questOf characterOf completedOf Output.defaultValue inputChars

/-- The character-name selection (main.rs lines 365-375): with a non-empty
selection, keep only names appearing in the input map; with an empty
selection, keep every remote name. -/
def filterCharacterNames (inputChars : List (String × CharacterInput))
    (remoteNames : List String) : List String :=
  if inputChars.length > 0 then
    remoteNames.filter (fun n => (alookup inputChars n).isSome)
  else
    remoteNames

/-- `quest_ids.as_slice().chunks(100)` (main.rs line 425): consecutive chunks
of at most 100 ids. -/
def chunksOf100 : List Nat → List (List Nat)
  | [] => []
  | x :: xs => (x :: xs.take 99) :: chunksOf100 (xs.drop 99)
termination_by l => l.length
decreasing_by simp [List.length_drop]; omega

/-- The quest-detail request URI for one chunk (main.rs lines 426-428): the
chunk's ids folded into the single `ids` query parameter. -/
def questsUri (quest_chunk : List Nat) : String :=
  quest_chunk.foldl (fun str id => str ++ toString id ++ ",")
    "https://api.guildwars2.com/v2/quests?ids="

/-- The batched quest-detail requests (main.rs lines 421-432): one GET per
chunk. -/
def questRequests (quest_ids : List Nat) : List String :=
  (chunksOf100 quest_ids).map questsUri

/-- The comma-joined id list of one chunk, as a plain recursion; `questsUri`
is proved to append exactly this to the base URI. -/
def idsParam : List Nat → String
  | [] => ""
  | x :: t => toString x ++ "," ++ idsParam t

/-- Fan-in of an unordered concurrent task set (main.rs lines 389-393, 407-411,
434-438): the results arrive in an arbitrary completion order and are inserted
into a map keyed by a derived identifier. -/
def buildKeyed {κ α : Type} [DecidableEq κ] (key : α → κ) (l : List α) : List (κ × α) :=
  l.foldl (fun m x => hashInsert m (key x) x) []

/-- The season map produced by the season fan-in, as a lookup function. -/
def seasonLookup (fetched : List Season) : String → Option Season :=
  fun k => alookup (buildKeyed Season.id fetched) k

/-- The quest catalog produced by the quest fan-in, as a lookup function. -/
def questLookup (fetched : List Quest) : Nat → Option Quest :=
  fun k => alookup (buildKeyed Quest.id fetched) k

/-- The character map produced by the character fan-in, as a lookup function. -/
def characterLookup (fetched : List Character) : String → Option Character :=
  fun k => alookup (buildKeyed Character.name fetched) k

/-- Whether an `Except` result is a successful run. -/
def exceptOk {α : Type} : Except PanicKind α → Bool
  | .ok _ => true
  | .error _ => false

/-- Whether a run aborted specifically through the `OptionValue::insert`
"Can only insert into a table" panic. -/
def isInsertPanic {α : Type} : Except PanicKind α → Bool
  | .error .insertNotTable => true
  | _ => false

/-- The trigger list of a successful run (empty for an aborted run, which
writes nothing). -/
def okTriggers : Except PanicKind Output → List Trigger
  | .ok o => o.game_options.triggers
  | .error _ => []

/-- The character trigger of a successful `processCharacter`. -/
def pcCharTrigger : Except PanicKind (Trigger × List Trigger) → Trigger
  | .ok p => p.1
  | .error _ => Trigger.new "" ""

/-- The storyline sub-triggers of a successful `processCharacter`. -/
def pcStoryTriggers : Except PanicKind (Trigger × List Trigger) → List Trigger
  | .ok p => p.2
  | .error _ => []

/-- The "storyline" weight table inside a character trigger. -/
def storylineTableOf (t : Trigger) : List (String × Nat) :=
  match alookup t.options "Guild Wars 2" with
  | some inner =>
      match alookup inner "storyline" with
      | some (.Table m) => m
      | _ => []
  | none => []

/-- The "character_profession" weight table inside a character trigger. -/
def professionTableOf (t : Trigger) : List (String × Nat) :=
  match alookup t.options "Guild Wars 2" with
  | some inner =>
      match alookup inner "character_profession" with
      | some (.Table m) => m
      | _ => []
  | none => []

/-- The "character_race" weight table inside a character trigger. -/
def raceTableOf (t : Trigger) : List (String × Nat) :=
  match alookup t.options "Guild Wars 2" with
  | some inner =>
      match alookup inner "character_race" with
      | some (.Table m) => m
      | _ => []
  | none => []

/-! ## Basic lemmas about the association-list embedding -/

theorem alookup_cons {κ ν : Type} [DecidableEq κ] (p : κ × ν) (t : List (κ × ν)) (k : κ) :
    alookup (p :: t) k = if p.1 = k then some p.2 else alookup t k := rfl

theorem alookup_filter_ne {κ ν : Type} [DecidableEq κ] (m : List (κ × ν)) (k k' : κ)
    (h : k ≠ k') :
    alookup (m.filter (fun p => decide (p.1 ≠ k))) k' = alookup m k' := by
  induction m with
  | nil => rfl
  | cons p t ih =>
      rw [List.filter_cons]
      by_cases hpk : p.1 = k
      · rw [if_neg (by simp [hpk]), ih, alookup_cons, if_neg (by rw [hpk]; exact h)]
      · rw [if_pos (by simp [hpk]), alookup_cons, alookup_cons, ih]

theorem alookup_hashInsert {κ ν : Type} [DecidableEq κ] (m : List (κ × ν)) (k k' : κ)
    (v : ν) :
    alookup (hashInsert m k v) k' = if k = k' then some v else alookup m k' := by
  by_cases h : k = k'
  · subst h; simp [hashInsert, alookup]
  · rw [hashInsert, alookup_cons, if_neg h, if_neg h, alookup_filter_ne m k k' h]

/-! ## Basic facts about the Storyline enumeration -/

theorem storyline_mem_iter (st : Storyline) : st ∈ Storyline.iter := by
  cases st <;> simp [Storyline.iter]

theorem storyline_iter_length : Storyline.iter.length = 10 := rfl

theorem storyline_snake_case_injective (a b : Storyline)
    (h : a.snake_case = b.snake_case) : a = b := by
  revert h
  cases a <;> cases b <;> decide

/-! ## Quest-batch chunking (C8) -/

theorem chunksOf100_flatten (l : List Nat) : (chunksOf100 l).flatten = l := by
  induction l using chunksOf100.induct with
  | case1 => simp [chunksOf100]
  | case2 x xs ih =>
      rw [chunksOf100]
      simp [ih, List.take_append_drop]

theorem chunksOf100_bounds (l : List Nat) (c : List Nat) (hc : c ∈ chunksOf100 l) :
    c.length ≤ 100 ∧ c ≠ [] := by
  induction l using chunksOf100.induct with
  | case1 => simp [chunksOf100] at hc
  | case2 x xs ih =>
      rw [chunksOf100] at hc
      rcases List.mem_cons.mp hc with h | h
      · subst h
        refine ⟨?_, by simp⟩
        have hmin : (xs.take 99).length ≤ 99 := by
          simp [List.length_take]
        simp only [List.length_cons]
        omega
      · exact ih h

theorem questsUri_foldl (c : List Nat) :
    ∀ s : String, c.foldl (fun str id => str ++ toString id ++ ",") s = s ++ idsParam c := by
  induction c with
  | nil => intro s; simp [idsParam]
  | cons x t ih =>
      intro s
      simp only [List.foldl, idsParam, ih]
      simp [String.append_assoc]

/-- C8: the quest detail fetch (main.rs lines 421-441) partitions the full
quest-id list into consecutive chunks of at most 100 ids, issues one GET
request per chunk with all of that chunk's ids joined into the single `ids`
query parameter, and every quest id appears in exactly one request (the
chunks concatenate back to the original list). -/
theorem c8_quest_detail_batching (quest_ids : List Nat) :
    (chunksOf100 quest_ids).flatten = quest_ids
    ∧ (∀ c ∈ chunksOf100 quest_ids, c.length ≤ 100 ∧ c ≠ [])
    ∧ questRequests quest_ids = (chunksOf100 quest_ids).map questsUri
    ∧ (∀ c ∈ chunksOf100 quest_ids,
        questsUri c = "https://api.guildwars2.com/v2/quests?ids=" ++ idsParam c) := by
  refine ⟨chunksOf100_flatten quest_ids,
    fun c hc => chunksOf100_bounds quest_ids c hc, rfl, ?_⟩
  intro c _
  exact questsUri_foldl c _

/-! ## Lemmas about the Except embedding of panics -/

theorem except_bind_ok {α β : Type} (a : α) (f : α → Except PanicKind β) :
    (Except.ok a >>= f : Except PanicKind β) = f a := rfl

theorem except_bind_error {α β : Type} (e : PanicKind) (f : α → Except PanicKind β) :
    ((Except.error e : Except PanicKind α) >>= f) = .error e := rfl

theorem completedCountRun_foldl_cases (qo : Nat → Option Quest) (season : Season) :
    ∀ (cs : List Nat) (acc : Except PanicKind Nat),
      ((∃ n, acc = .ok n) ∨ acc = .error .questMissing) →
      (∃ n, cs.foldl (fun acc q =>
          match acc, qo q with
          | .ok n, some quest =>
              .ok (if season.story_ids.contains quest.story_id then n + 1 else n)
          | .ok _, none => .error .questMissing
          | .error e, _ => .error e) acc = .ok n)
      ∨ cs.foldl (fun acc q =>
          match acc, qo q with
          | .ok n, some quest =>
              .ok (if season.story_ids.contains quest.story_id then n + 1 else n)
          | .ok _, none => .error .questMissing
          | .error e, _ => .error e) acc = .error .questMissing := by
  intro cs
  induction cs with
  | nil => intro acc h; simpa using h
  | cons q cs ih =>
      intro acc h
      rw [List.foldl_cons]
      apply ih
      rcases h with ⟨n, rfl⟩ | rfl
      · cases hq : qo q with
        | none => exact Or.inr (by simp [hq])
        | some quest =>
            refine Or.inl
              ⟨if season.story_ids.contains quest.story_id then n + 1 else n, ?_⟩
            rfl
      · cases hq : qo q <;> simp [hq]

theorem countForStoryline_cases (qo : Nat → Option Quest) (season : Season)
    (completed : Option (List Nat)) :
    (∃ n, countForStoryline qo season completed = .ok n)
    ∨ countForStoryline qo season completed = .error .questMissing := by
  cases completed with
  | none => exact Or.inl ⟨0, rfl⟩
  | some cs =>
      exact completedCountRun_foldl_cases qo season cs (.ok 0) (Or.inl ⟨0, rfl⟩)

/-! ## String key disjointness -/

theorem string_append_right_cancel (a b c : String) (h : a ++ c = b ++ c) : a = b := by
  have hd : a.data ++ c.data = b.data ++ c.data := by
    have h2 := congrArg String.data h
    simpa [String.data_append] using h2
  have hlen : a.data.length = b.data.length := by
    have := congrArg List.length hd
    simp only [List.length_append] at this
    omega
  have hab : a.data = b.data := by
    have h1 : (a.data ++ c.data).take a.data.length = a.data := List.take_left a.data c.data
    have h2 : (b.data ++ c.data).take b.data.length = b.data := List.take_left b.data c.data
    rw [← h1, ← h2, hd, hlen]
  cases a; cases b; exact congrArg String.mk hab

theorem storyline_key_injective (name : String) (a b : Storyline)
    (h : a.snake_case ++ " " ++ name = b.snake_case ++ " " ++ name) : a = b := by
  apply storyline_snake_case_injective
  have h1 : a.snake_case ++ " " = b.snake_case ++ " " :=
    string_append_right_cancel _ _ _ h
  exact string_append_right_cancel _ _ _ h1

/-! ## The storyline loop (main.rs lines 493-537) -/

theorem storylineStep_skip (so : String → Option Season) (qo : Nat → Option Quest)
    (completed : Option (List Nat)) (name : String)
    (opts : Option (List (String × Nat))) (state : Trigger × List Trigger)
    (st : Storyline) (h : storylineWeight opts st = none) :
    storylineStep so qo completed name opts state st = .ok state := by
  simp [storylineStep, h]

theorem insertIntoTable_storyline (t : Trigger) (inner : List (String × OptionValue))
    (m : List (String × Nat)) (key : String) (w : Nat)
    (h1 : alookup t.options "Guild Wars 2" = some inner)
    (h2 : alookup inner "storyline" = some (.Table m)) :
    t.insertIntoTable "Guild Wars 2" "storyline" key w =
      .ok { t with options := (hashInsert t.options "Guild Wars 2"
              (hashInsert inner "storyline" (.Table (hashInsert m key w)))) } := by
  simp [Trigger.insertIntoTable, h1, h2, OptionValue.insert]

theorem storylineStep_eq (so : String → Option Season) (qo : Nat → Option Quest)
    (completed : Option (List Nat)) (name : String)
    (opts : Option (List (String × Nat))) (t : Trigger) (acc : List Trigger)
    (st : Storyline) (w : Nat) (hw : storylineWeight opts st = some w) :
    storylineStep so qo completed name opts (t, acc) st =
      match so st.id with
      | none => .error .seasonMissing
      | some season =>
          match countForStoryline qo season completed with
          | .error e => .error e
          | .ok n =>
              match t.insertIntoTable "Guild Wars 2" "storyline"
                  (st.snake_case ++ " " ++ name) w with
              | .error e => .error e
              | .ok t2 =>
                  match usizeSub st.max_quests n with
                  | .error e => .error e
                  | .ok mq =>
                      .ok (t2, acc ++ [mkQuestTrigger st (st.snake_case ++ " " ++ name) mq]) := by
  simp only [storylineStep, hw]
  cases so st.id with
  | none => rfl
  | some season =>
      cases countForStoryline qo season completed with
      | error e => rfl
      | ok n =>
          cases t.insertIntoTable "Guild Wars 2" "storyline" (st.snake_case ++ " " ++ name) w with
          | error e => rfl
          | ok t2 =>
              cases usizeSub st.max_quests n with
              | error e => rfl
              | ok mq => rfl

theorem usizeSub_error (m c : Nat) (e : PanicKind) (h : usizeSub m c = .error e) :
    e = .maxQuestsUnderflow := by
  unfold usizeSub at h
  by_cases hle : c ≤ m <;> simp [hle] at h
  exact h.symm

theorem storylineStep_seasonMissing (so : String → Option Season)
    (qo : Nat → Option Quest) (completed : Option (List Nat)) (name : String)
    (opts : Option (List (String × Nat))) (t : Trigger) (acc : List Trigger)
    (st : Storyline) (w : Nat) (hw : storylineWeight opts st = some w)
    (hs : so st.id = none) :
    storylineStep so qo completed name opts (t, acc) st = .error .seasonMissing := by
  simp [storylineStep, hw, hs]

theorem storylineStep_countErr (so : String → Option Season)
    (qo : Nat → Option Quest) (completed : Option (List Nat)) (name : String)
    (opts : Option (List (String × Nat))) (t : Trigger) (acc : List Trigger)
    (st : Storyline) (w : Nat) (season : Season) (e : PanicKind)
    (hw : storylineWeight opts st = some w) (hs : so st.id = some season)
    (hc : countForStoryline qo season completed = .error e) :
    storylineStep so qo completed name opts (t, acc) st = .error e := by
  simp [storylineStep, hw, hs, hc]

theorem storylineStep_ok (so : String → Option Season) (qo : Nat → Option Quest)
    (completed : Option (List Nat)) (name : String)
    (opts : Option (List (String × Nat))) (t : Trigger) (acc : List Trigger)
    (st : Storyline) (w : Nat) (season : Season) (n : Nat)
    (inner : List (String × OptionValue)) (m : List (String × Nat))
    (hw : storylineWeight opts st = some w) (hs : so st.id = some season)
    (hc : countForStoryline qo season completed = .ok n)
    (h1 : alookup t.options "Guild Wars 2" = some inner)
    (h2 : alookup inner "storyline" = some (.Table m))
    (hle : n ≤ st.max_quests) :
    storylineStep so qo completed name opts (t, acc) st =
      .ok ({ t with options := (hashInsert t.options "Guild Wars 2"
               (hashInsert inner "storyline"
                 (.Table (hashInsert m (st.snake_case ++ " " ++ name) w)))) },
           acc ++ [mkQuestTrigger st (st.snake_case ++ " " ++ name) (st.max_quests - n)]) := by
  simp only [storylineStep_eq so qo completed name opts t acc st w hw, hs, hc,
    insertIntoTable_storyline t inner m _ w h1 h2, usizeSub, if_pos hle]

theorem storylineStep_underflow (so : String → Option Season) (qo : Nat → Option Quest)
    (completed : Option (List Nat)) (name : String)
    (opts : Option (List (String × Nat))) (t : Trigger) (acc : List Trigger)
    (st : Storyline) (w : Nat) (season : Season) (n : Nat)
    (inner : List (String × OptionValue)) (m : List (String × Nat))
    (hw : storylineWeight opts st = some w) (hs : so st.id = some season)
    (hc : countForStoryline qo season completed = .ok n)
    (h1 : alookup t.options "Guild Wars 2" = some inner)
    (h2 : alookup inner "storyline" = some (.Table m))
    (hgt : ¬ n ≤ st.max_quests) :
    storylineStep so qo completed name opts (t, acc) st = .error .maxQuestsUnderflow := by
  simp only [storylineStep_eq so qo completed name opts t acc st w hw, hs, hc,
    insertIntoTable_storyline t inner m _ w h1 h2, usizeSub, if_neg hgt]

theorem storylineLoop_spec (so : String → Option Season) (qo : Nat → Option Quest)
    (completed : Option (List Nat)) (name : String)
    (opts : Option (List (String × Nat))) :
    ∀ (L : List Storyline) (t : Trigger) (acc : List Trigger)
      (inner : List (String × OptionValue)) (m : List (String × Nat)),
      (L.map Storyline.snake_case).Nodup →
      alookup t.options "Guild Wars 2" = some inner →
      alookup inner "storyline" = some (.Table m) →
      isInsertPanic (L.foldlM (storylineStep so qo completed name opts) (t, acc)) = false
      ∧ ∀ t2 acc2,
          L.foldlM (storylineStep so qo completed name opts) (t, acc) = .ok (t2, acc2) →
          ∃ inner2 m2,
            alookup t2.options "Guild Wars 2" = some inner2
            ∧ alookup inner2 "storyline" = some (.Table m2)
            ∧ (∀ k, k ≠ "storyline" → alookup inner2 k = alookup inner k)
            ∧ (∀ k, (∀ st ∈ L, (storylineWeight opts st).isSome = true →
                  k ≠ st.snake_case ++ " " ++ name) → alookup m2 k = alookup m k)
            ∧ (∀ st ∈ L, ∀ w, storylineWeight opts st = some w →
                  alookup m2 (st.snake_case ++ " " ++ name) = some w)
            ∧ acc2.map Trigger.option_result
                = acc.map Trigger.option_result
                  ++ (L.filter (fun st => (storylineWeight opts st).isSome)).map
                      (fun st => st.snake_case ++ " " ++ name)
            ∧ (∀ qt ∈ acc2, qt ∈ acc ∨ qt.option_name = "storyline")
            ∧ (∀ st ∈ L, (storylineWeight opts st).isSome = true →
                  (so st.id).isSome = true)
            ∧ t2.option_name = t.option_name
            ∧ t2.option_result = t.option_result
            ∧ t2.option_category = t.option_category := by
  intro L
  induction L with
  | nil =>
      intro t acc inner m _ h1 h2
      refine ⟨rfl, ?_⟩
      intro t2 acc2 heq
      rw [List.foldlM_nil] at heq
      have heq2 : (t, acc) = (t2, acc2) := Except.ok.inj heq
      injection heq2 with h3 h4
      subst h3; subst h4
      refine ⟨inner, m, h1, h2, fun k _ => rfl, fun k _ => rfl, ?_, ?_, ?_, ?_,
        rfl, rfl, rfl⟩
      · intro st hst; simp at hst
      · simp
      · intro qt hqt; exact Or.inl hqt
      · intro st hst; simp at hst
  | cons head tail ih =>
      intro t acc inner m hnd h1 h2
      rw [List.map_cons, List.nodup_cons] at hnd
      obtain ⟨hhead, htail⟩ := hnd
      rw [List.foldlM_cons]
      cases hw : storylineWeight opts head with
      | none =>
          rw [storylineStep_skip so qo completed name opts (t, acc) head hw, except_bind_ok]
          obtain ⟨hip, hok⟩ := ih t acc inner m htail h1 h2
          refine ⟨hip, ?_⟩
          intro t2 acc2 heq
          obtain ⟨inner2, m2, g1, g2, g3, g4, g5, g6, g7, g8, g9, g10, g11⟩ :=
            hok t2 acc2 heq
          refine ⟨inner2, m2, g1, g2, g3, ?_, ?_, ?_, g7, ?_, g9, g10, g11⟩
          · intro k hk
            exact g4 k (fun st hst hsome => hk st (List.mem_cons_of_mem _ hst) hsome)
          · intro st hst w2 hw2
            rcases List.mem_cons.mp hst with heqst | hst2
            · subst heqst; rw [hw] at hw2; exact absurd hw2 (by simp)
            · exact g5 st hst2 w2 hw2
          · rw [g6, List.filter_cons]
            simp [hw]
          · intro st hst hsome
            rcases List.mem_cons.mp hst with heqst | hst2
            · subst heqst; rw [hw] at hsome; simp at hsome
            · exact g8 st hst2 hsome
      | some w =>
          cases hs : so head.id with
          | none =>
              rw [storylineStep_seasonMissing so qo completed name opts t acc head w hw hs,
                except_bind_error]
              refine ⟨rfl, ?_⟩
              intro t2 acc2 heq
              exact Except.noConfusion heq
          | some season =>
              rcases countForStoryline_cases qo season completed with ⟨n, hn⟩ | hn
              · by_cases hle : n ≤ head.max_quests
                · rw [storylineStep_ok so qo completed name opts t acc head w season n inner m
                    hw hs hn h1 h2 hle, except_bind_ok]
                  have h1' : alookup
                      ({ t with options := (hashInsert t.options "Guild Wars 2"
                          (hashInsert inner "storyline"
                            (.Table (hashInsert m (head.snake_case ++ " " ++ name) w)))) }
                        : Trigger).options "Guild Wars 2"
                      = some (hashInsert inner "storyline"
                          (.Table (hashInsert m (head.snake_case ++ " " ++ name) w))) := by
                    simp [alookup_hashInsert]
                  have h2' : alookup
                      (hashInsert inner "storyline"
                        (.Table (hashInsert m (head.snake_case ++ " " ++ name) w))) "storyline"
                      = some (.Table (hashInsert m (head.snake_case ++ " " ++ name) w)) := by
                    simp [alookup_hashInsert]
                  obtain ⟨hip, hok⟩ := ih
                    ({ t with options := (hashInsert t.options "Guild Wars 2"
                        (hashInsert inner "storyline"
                          (.Table (hashInsert m (head.snake_case ++ " " ++ name) w)))) })
                    (acc ++ [mkQuestTrigger head (head.snake_case ++ " " ++ name)
                      (head.max_quests - n)])
                    (hashInsert inner "storyline"
                      (.Table (hashInsert m (head.snake_case ++ " " ++ name) w)))
                    (hashInsert m (head.snake_case ++ " " ++ name) w)
                    htail h1' h2'
                  refine ⟨hip, ?_⟩
                  intro t2 acc2 heq
                  obtain ⟨inner2, m2, g1, g2, g3, g4, g5, g6, g7, g8, g9, g10, g11⟩ :=
                    hok t2 acc2 heq
                  have hkeynot : ∀ st' ∈ tail, (storylineWeight opts st').isSome = true →
                      (head.snake_case ++ " " ++ name) ≠ st'.snake_case ++ " " ++ name := by
                    intro st' hst' _ hkk
                    have hsame : head = st' := storyline_key_injective name head st' hkk
                    subst hsame
                    exact hhead (List.mem_map_of_mem _ hst')
                  refine ⟨inner2, m2, g1, g2, ?_, ?_, ?_, ?_, ?_, ?_, g9, g10, g11⟩
                  · intro k hk
                    rw [g3 k hk, alookup_hashInsert, if_neg (fun hh => hk hh.symm)]
                  · intro k hk
                    have hkne : k ≠ head.snake_case ++ " " ++ name :=
                      hk head (List.mem_cons_self _ _) (by simp [hw])
                    rw [g4 k (fun st hst hsome => hk st (List.mem_cons_of_mem _ hst) hsome),
                      alookup_hashInsert, if_neg (fun hh => hkne hh.symm)]
                  · intro st hst w2 hw2
                    rcases List.mem_cons.mp hst with heqst | hst2
                    · subst heqst
                      rw [hw] at hw2
                      injection hw2 with hww
                      subst hww
                      rw [g4 (st.snake_case ++ " " ++ name) hkeynot,
                        alookup_hashInsert, if_pos rfl]
                    · exact g5 st hst2 w2 hw2
                  · rw [g6, List.filter_cons]
                    simp [hw, mkQuestTrigger]
                  · intro qt hqt
                    rcases g7 qt hqt with hmem | hname
                    · rcases List.mem_append.mp hmem with ha | hb
                      · exact Or.inl ha
                      · simp only [List.mem_singleton] at hb
                        subst hb
                        exact Or.inr rfl
                    · exact Or.inr hname
                  · intro st hst hsome
                    rcases List.mem_cons.mp hst with heqst | hst2
                    · subst heqst; simp [hs]
                    · exact g8 st hst2 hsome
                · rw [storylineStep_underflow so qo completed name opts t acc head w season n
                    inner m hw hs hn h1 h2 hle, except_bind_error]
                  refine ⟨rfl, ?_⟩
                  intro t2 acc2 heq
                  exact Except.noConfusion heq
              · rw [storylineStep_countErr so qo completed name opts t acc head w season _
                  hw hs hn, except_bind_error]
                refine ⟨rfl, ?_⟩
                intro t2 acc2 heq
                exact Except.noConfusion heq

/-! ## Per-character aggregation (main.rs lines 446-537) -/

theorem processCharacter_eq (so : String → Option Season) (qo : Nat → Option Quest)
    (co : String → Option Character) (fo : String → List Nat)
    (name : String) (copts : CharacterInput) (p r : String) (cq : Option (List Nat))
    (hres : resolveCharacter co fo name = (p, r, cq)) :
    processCharacter so qo co fo name copts =
      Storyline.iter.foldlM (storylineStep so qo cq name copts.storyline)
        (initialCharTrigger name p r, []) := by
  unfold processCharacter
  rw [hres]
  rfl

theorem storyline_iter_snake_nodup :
    (Storyline.iter.map Storyline.snake_case).Nodup := by decide

theorem processCharacter_spec (so : String → Option Season) (qo : Nat → Option Quest)
    (co : String → Option Character) (fo : String → List Nat)
    (name : String) (copts : CharacterInput) (p r : String) (cq : Option (List Nat))
    (hres : resolveCharacter co fo name = (p, r, cq)) :
    isInsertPanic (processCharacter so qo co fo name copts) = false
    ∧ ∀ t2 sts, processCharacter so qo co fo name copts = .ok (t2, sts) →
        t2.option_name = "character"
        ∧ t2.option_result = name
        ∧ t2.option_category = "Guild Wars 2"
        ∧ professionTableOf t2 = [(p, default_weight)]
        ∧ raceTableOf t2 = [(r, default_weight)]
        ∧ (∀ st : Storyline, ∀ w, storylineWeight copts.storyline st = some w →
            alookup (storylineTableOf t2) (st.snake_case ++ " " ++ name) = some w)
        ∧ (∀ k, (∀ st : Storyline, (storylineWeight copts.storyline st).isSome = true →
            k ≠ st.snake_case ++ " " ++ name) → alookup (storylineTableOf t2) k = none)
        ∧ sts.map Trigger.option_result
            = (Storyline.iter.filter
                (fun st => (storylineWeight copts.storyline st).isSome)).map
                (fun st => st.snake_case ++ " " ++ name)
        ∧ (∀ qt ∈ sts, qt.option_name = "storyline")
        ∧ (∀ st : Storyline, (storylineWeight copts.storyline st).isSome = true →
            (so st.id).isSome = true) := by
  rw [processCharacter_eq so qo co fo name copts p r cq hres]
  have h1 : alookup (initialCharTrigger name p r).options "Guild Wars 2"
      = some [("storyline", .Table []),
              ("character_race", .Table [(r, default_weight)]),
              ("character_profession", .Table [(p, default_weight)])] := rfl
  have h2 : alookup
      ([("storyline", OptionValue.Table []),
        ("character_race", OptionValue.Table [(r, default_weight)]),
        ("character_profession", OptionValue.Table [(p, default_weight)])])
      "storyline" = some (.Table []) := rfl
  obtain ⟨hip, hok⟩ := storylineLoop_spec so qo cq name copts.storyline
    Storyline.iter (initialCharTrigger name p r) [] _ _
    storyline_iter_snake_nodup h1 h2
  refine ⟨hip, ?_⟩
  intro t2 sts heq
  obtain ⟨inner2, m2, g1, g2, g3, g4, g5, g6, g7, g8, g9, g10, g11⟩ := hok t2 sts heq
  have hcp : alookup inner2 "character_profession"
      = some (.Table [(p, default_weight)]) := by
    rw [g3 "character_profession" (by decide)]
    rfl
  have hcr : alookup inner2 "character_race"
      = some (.Table [(r, default_weight)]) := by
    rw [g3 "character_race" (by decide)]
    rfl
  have hst : storylineTableOf t2 = m2 := by
    simp only [storylineTableOf, g1, g2]
  refine ⟨g9, g10, g11, ?_, ?_, ?_, ?_, ?_, ?_, ?_⟩
  · simp only [professionTableOf, g1, hcp]
  · simp only [raceTableOf, g1, hcr]
  · intro st w hw
    rw [hst]
    exact g5 st (storyline_mem_iter st) w hw
  · intro k hk
    rw [hst, g4 k (fun st _ hsome => hk st hsome)]
    rfl
  · simpa using g6
  · intro qt hqt
    rcases g7 qt hqt with hmem | hname
    · simp at hmem
    · exact hname
  · intro st hsome
    exact g8 st (storyline_mem_iter st) hsome

theorem isInsertPanic_error_iff {α : Type} (e : PanicKind) :
    isInsertPanic (Except.error e : Except PanicKind α) = false ↔ e ≠ .insertNotTable := by
  cases e <;> simp [isInsertPanic]

/-! ## The whole aggregation loop (main.rs lines 444-541) -/

theorem aggregateFrom_spec (so : String → Option Season) (qo : Nat → Option Quest)
    (co : String → Option Character) (fo : String → List Nat) :
    ∀ (ics : List (String × CharacterInput)) (output : Output),
      isInsertPanic (aggregateFrom so qo co fo output ics) = false
      ∧ ∀ out, aggregateFrom so qo co fo output ics = .ok out →
          ∃ gs : List (List Trigger),
            gs.length = ics.length
            ∧ out.game_options.triggers = output.game_options.triggers ++ gs.flatten
            ∧ ∀ i (hi : i < ics.length) (hg : i < gs.length),
                ∃ t sts,
                  processCharacter so qo co fo (ics.get ⟨i, hi⟩).1 (ics.get ⟨i, hi⟩).2
                    = .ok (t, sts)
                  ∧ gs.get ⟨i, hg⟩ = t :: sts := by
  intro ics
  induction ics with
  | nil =>
      intro output
      refine ⟨rfl, ?_⟩
      intro out heq
      have heq2 : output = out := Except.ok.inj heq
      subst heq2
      exact ⟨[], rfl, by simp, fun i hi _ => absurd hi (by simp)⟩
  | cons hd rest ih =>
      obtain ⟨n, c⟩ := hd
      intro output
      rw [aggregateFrom]
      rcases hres : resolveCharacter co fo n with ⟨p, r0, cq⟩
      have pspec := processCharacter_spec so qo co fo n c p r0 cq hres
      cases hpc : processCharacter so qo co fo n c with
      | error e =>
          have hne : e ≠ .insertNotTable := by
            have h0 := pspec.1
            rw [hpc] at h0
            exact (isInsertPanic_error_iff e).mp h0
          refine ⟨(isInsertPanic_error_iff e).mpr hne, ?_⟩
          intro out heq
          exact Except.noConfusion heq
      | ok pr =>
          obtain ⟨t, sts⟩ := pr
          obtain ⟨hip, hok⟩ := ih
            { output with
                game_options :=
                  { output.game_options with
                      character := hashInsert output.game_options.character n c.weight,
                      triggers := output.game_options.triggers ++ [t] ++ sts } }
          refine ⟨hip, ?_⟩
          intro out heq
          obtain ⟨gs, hlen, htr, hidx⟩ := hok out heq
          refine ⟨(t :: sts) :: gs, by simp [hlen], ?_, ?_⟩
          · rw [htr]
            simp [List.append_assoc]
          · intro i hi hg
            cases i with
            | zero => exact ⟨t, sts, hpc, rfl⟩
            | succ j =>
                obtain ⟨t2, sts2, hpc2, hget2⟩ :=
                  hidx j (Nat.lt_of_succ_lt_succ hi) (Nat.lt_of_succ_lt_succ hg)
                exact ⟨t2, sts2, hpc2, hget2⟩

/-! ## Fan-in determinism: keyed maps are insensitive to completion order -/

theorem buildKeyed_lookup_foldl {κ α : Type} [DecidableEq κ] (key : α → κ) :
    ∀ (l : List α) (m : List (κ × α)) (k : κ),
      alookup (l.foldl (fun m x => hashInsert m (key x) x) m) k
        = match l.reverse.find? (fun x => decide (key x = k)) with
          | some v => some v
          | none => alookup m k := by
  intro l
  induction l with
  | nil => intro m k; rfl
  | cons a l ih =>
      intro m k
      rw [List.foldl_cons, ih, List.reverse_cons, List.find?_append]
      cases hfind : l.reverse.find? (fun x => decide (key x = k)) with
      | some v => simp [Option.orElse]
      | none =>
          simp only [Option.orElse, Option.none_orElse]
          cases hka : decide (key a = k) with
          | true =>
              have hka2 : key a = k := of_decide_eq_true hka
              simp [List.find?, hka, alookup_hashInsert, hka2]
          | false =>
              have hka2 : ¬ key a = k := of_decide_eq_false hka
              simp [List.find?, hka, alookup_hashInsert, hka2]

theorem buildKeyed_lookup_perm {κ α : Type} [DecidableEq κ] (key : α → κ)
    (l₁ l₂ : List α) (hperm : l₁.Perm l₂) (hnd : (l₁.map key).Nodup) (k : κ) :
    alookup (buildKeyed key l₁) k = alookup (buildKeyed key l₂) k := by
  unfold buildKeyed
  rw [buildKeyed_lookup_foldl, buildKeyed_lookup_foldl]
  have hinj : ∀ x ∈ l₁, ∀ y ∈ l₁, key x = key y → x = y :=
    List.inj_on_of_nodup_map hnd
  cases h₁ : l₁.reverse.find? (fun x => decide (key x = k)) with
  | some v =>
      have hv1 : v ∈ l₁ := List.mem_reverse.mp (List.mem_of_find?_eq_some h₁)
      have hv2 : key v = k := by
        have h3 := List.find?_some h₁
        simpa using h3
      cases h₂ : l₂.reverse.find? (fun x => decide (key x = k)) with
      | some v2 =>
          have hw1 : v2 ∈ l₁ := hperm.mem_iff.mpr (List.mem_reverse.mp
            (List.mem_of_find?_eq_some h₂))
          have hw2 : key v2 = k := by
            have h3 := List.find?_some h₂
            simpa using h3
          have : v = v2 := hinj v hv1 v2 hw1 (by rw [hv2, hw2])
          rw [this]
      | none =>
          exfalso
          have hv3 : v ∈ l₂.reverse := List.mem_reverse.mpr (hperm.mem_iff.mp hv1)
          have := List.find?_eq_none.mp h₂ v hv3
          simp [hv2] at this
  | none =>
      cases h₂ : l₂.reverse.find? (fun x => decide (key x = k)) with
      | some v2 =>
          exfalso
          have hw1 : v2 ∈ l₁ := hperm.mem_iff.mpr (List.mem_reverse.mp
            (List.mem_of_find?_eq_some h₂))
          have hw2 : key v2 = k := by
            have h3 := List.find?_some h₂
            simpa using h3
          have := List.find?_eq_none.mp h₁ v2 (List.mem_reverse.mpr hw1)
          simp [hw2] at this
      | none => rfl

theorem aggregate_ok_seasons (so : String → Option Season) (qo : Nat → Option Quest)
    (co : String → Option Character) (fo : String → List Nat)
    (ics : List (String × CharacterInput)) (out : Output)
    (h : aggregate so qo co fo ics = .ok out) :
    ∀ p ∈ ics, ∀ st : Storyline,
      (storylineWeight p.2.storyline st).isSome = true → (so st.id).isSome = true := by
  obtain ⟨gs, hlen, htr, hidx⟩ :=
    (aggregateFrom_spec so qo co fo ics Output.defaultValue).2 out h
  intro p hp st hsome
  obtain ⟨i, hget⟩ := List.mem_iff_get.mp hp
  obtain ⟨t, sts, hpc, _⟩ := hidx i.1 i.2 (by rw [hlen]; exact i.2)
  rcases hres : resolveCharacter co fo (ics.get i).1 with ⟨pp, rr, cq⟩
  obtain ⟨_, _, _, _, _, _, _, _, _, hseasons⟩ :=
    (processCharacter_spec so qo co fo (ics.get i).1 (ics.get i).2 pp rr cq hres).2
      t sts hpc
  have hgoal := hseasons st
  rw [hget] at hgoal
  exact hgoal hsome

/-- C10: `OptionValue::insert` panics unless the receiver is the `Table`
variant; in the aggregation path every `OptionValue::insert` call targets an
entry created as `OptionValue::Table`, so for every input the
"Can only insert into a table" panic branch is unreachable: no run of the
aggregation ever aborts through that panic. -/
theorem c10_insert_panic_unreachable (so : String → Option Season)
    (qo : Nat → Option Quest) (co : String → Option Character)
    (fo : String → List Nat) (inputChars : List (String × CharacterInput)) :
    (∀ s value weight,
      (OptionValue.Value s).insert value weight = .error .insertNotTable)
    ∧ isInsertPanic (aggregate so qo co fo inputChars) = false :=
  ⟨fun _ _ _ => rfl, (aggregateFrom_spec so qo co fo inputChars Output.defaultValue).1⟩

/-- C9: with an empty character selection map the aggregation loop produces
nothing: the output document is exactly the pre-populated static default
document, with an empty character weight table, an empty storyline table and
an empty trigger list; the character-name selection still keeps every remote
name (so the character list and reference data are still fetched). -/
theorem c9_empty_selection (so : String → Option Season) (qo : Nat → Option Quest)
    (co : String → Option Character) (fo : String → List Nat)
    (remoteNames : List String) :
    aggregate so qo co fo [] = .ok Output.defaultValue
    ∧ Output.defaultValue.game_options.character = []
    ∧ Output.defaultValue.game_options.storyline = []
    ∧ Output.defaultValue.game_options.triggers = []
    ∧ filterCharacterNames [] remoteNames = remoteNames := by
  refine ⟨rfl, rfl, rfl, rfl, ?_⟩
  simp [filterCharacterNames]

/-- C7: a Storyline that is referenced during aggregation (its weight is
resolved, so its season is indexed) but has no fetched Season with a matching
id makes the run abort with a panic before any output is produced, rather
than continuing; `exceptOk ... = false` states that no output document is
ever produced from such a run. -/
theorem c7_missing_season_aborts (so : String → Option Season)
    (qo : Nat → Option Quest) (co : String → Option Character)
    (fo : String → List Nat) (ics : List (String × CharacterInput))
    (name : String) (copts : CharacterInput) (st : Storyline) (w : Nat)
    (hmem : (name, copts) ∈ ics)
    (hw : storylineWeight copts.storyline st = some w)
    (hs : so st.id = none) :
    exceptOk (aggregate so qo co fo ics) = false := by
  cases hagg : aggregate so qo co fo ics with
  | error e => rfl
  | ok out =>
      exfalso
      have hpres := aggregate_ok_seasons so qo co fo ics out hagg (name, copts) hmem st
        (by simp [hw])
      rw [hs] at hpres
      simp at hpres

/-- Witness for C7 at a concrete input: one selected character overriding only
the `core` storyline, with a remote season map that has no seasons at all; the
run aborts. -/
theorem c7_missing_season_aborts_witness :
    exceptOk (aggregate (fun _ => none) (fun _ => none) (fun _ => none) (fun _ => [])
      [("Mara", { weight := 50, storyline := some [("core", 5)] })]) = false :=
  c7_missing_season_aborts (fun _ => none) (fun _ => none) (fun _ => none) (fun _ => [])
    [("Mara", { weight := 50, storyline := some [("core", 5)] })]
    "Mara" { weight := 50, storyline := some [("core", 5)] } .Core 5
    (by simp) rfl rfl

/-- C4: in a successful run's output trigger list, the triggers decompose into
one consecutive group per selected character, in input order: each group is
that character's "character" trigger first, followed by its storyline
sub-triggers whose keys follow the fixed Storyline enumeration order. -/
theorem c4_trigger_order (so : String → Option Season) (qo : Nat → Option Quest)
    (co : String → Option Character) (fo : String → List Nat)
    (ics : List (String × CharacterInput))
    (h : exceptOk (aggregate so qo co fo ics) = true) :
    ∃ gs : List (List Trigger),
      gs.length = ics.length
      ∧ okTriggers (aggregate so qo co fo ics) = gs.flatten
      ∧ ∀ i (hi : i < ics.length) (hg : i < gs.length),
          ∃ t sts,
            gs.get ⟨i, hg⟩ = t :: sts
            ∧ t.option_name = "character"
            ∧ t.option_result = (ics.get ⟨i, hi⟩).1
            ∧ sts.map Trigger.option_result
                = (Storyline.iter.filter
                    (fun st => (storylineWeight (ics.get ⟨i, hi⟩).2.storyline st).isSome)).map
                    (fun st => st.snake_case ++ " " ++ (ics.get ⟨i, hi⟩).1)
            ∧ ∀ qt ∈ sts, qt.option_name = "storyline" := by
  cases hagg : aggregate so qo co fo ics with
  | error e => rw [hagg] at h; simp [exceptOk] at h
  | ok out =>
      obtain ⟨gs, hlen, htr, hidx⟩ :=
        (aggregateFrom_spec so qo co fo ics Output.defaultValue).2 out hagg
      refine ⟨gs, hlen, ?_, ?_⟩
      · simp only [okTriggers]
        simpa using htr
      · intro i hi hg
        obtain ⟨t, sts, hpc, hget⟩ := hidx i hi hg
        rcases hres : resolveCharacter co fo (ics.get ⟨i, hi⟩).1 with ⟨pp, rr, cq⟩
        obtain ⟨hn, hr, _, _, _, _, _, hmap, hnames, _⟩ :=
          (processCharacter_spec so qo co fo (ics.get ⟨i, hi⟩).1 (ics.get ⟨i, hi⟩).2
            pp rr cq hres).2 t sts hpc
        exact ⟨t, sts, hget, hn, hr, hmap, hnames⟩

/-- Witness for C4 at a concrete input: a single character absent from the
remote account, a remote season for every id, no overrides. -/
theorem c4_trigger_order_witness :
    ∃ gs : List (List Trigger),
      gs.length = [("Mara", ({ weight := 50, storyline := none } : CharacterInput))].length
      ∧ okTriggers (aggregate (fun k => some { id := k, story_ids := [] })
          (fun _ => none) (fun _ => none) (fun _ => [])
          [("Mara", { weight := 50, storyline := none })]) = gs.flatten
      ∧ ∀ i (hi : i < [("Mara", ({ weight := 50, storyline := none } : CharacterInput))].length)
          (hg : i < gs.length),
          ∃ t sts,
            gs.get ⟨i, hg⟩ = t :: sts
            ∧ t.option_name = "character"
            ∧ t.option_result
                = ([("Mara", ({ weight := 50, storyline := none } : CharacterInput))].get
                    ⟨i, hi⟩).1
            ∧ sts.map Trigger.option_result
                = (Storyline.iter.filter
                    (fun st => (storylineWeight
                      ([("Mara", ({ weight := 50, storyline := none } : CharacterInput))].get
                        ⟨i, hi⟩).2.storyline st).isSome)).map
                    (fun st => st.snake_case ++ " "
                      ++ ([("Mara", ({ weight := 50, storyline := none } : CharacterInput))].get
                          ⟨i, hi⟩).1)
            ∧ ∀ qt ∈ sts, qt.option_name = "storyline" :=
  c4_trigger_order (fun k => some { id := k, story_ids := [] }) (fun _ => none)
    (fun _ => none) (fun _ => []) [("Mara", { weight := 50, storyline := none })] (by rfl)

/-- C5: per character, with an explicit storyline-override mapping a Storyline
produces a storyline option entry and sub-trigger exactly when its canonical
snake-case key is present in that mapping (absent keys are skipped, not
defaulted), with the weight taken from the mapping; with no mapping, all 10
Storylines are included with their static default weights; emitted triggers
follow the fixed enumeration order. -/
theorem c5_storyline_override (so : String → Option Season) (qo : Nat → Option Quest)
    (co : String → Option Character) (fo : String → List Nat)
    (name : String) (copts : CharacterInput)
    (h : exceptOk (processCharacter so qo co fo name copts) = true) :
    (∀ mp, copts.storyline = some mp →
      (pcStoryTriggers (processCharacter so qo co fo name copts)).map
          Trigger.option_result
        = (Storyline.iter.filter (fun st => (alookup mp st.snake_case).isSome)).map
            (fun st => st.snake_case ++ " " ++ name)
      ∧ (∀ st : Storyline, ∀ w, alookup mp st.snake_case = some w →
          alookup (storylineTableOf (pcCharTrigger
              (processCharacter so qo co fo name copts)))
            (st.snake_case ++ " " ++ name) = some w)
      ∧ (∀ st : Storyline, alookup mp st.snake_case = none →
          alookup (storylineTableOf (pcCharTrigger
              (processCharacter so qo co fo name copts)))
            (st.snake_case ++ " " ++ name) = none))
    ∧ (copts.storyline = none →
      (pcStoryTriggers (processCharacter so qo co fo name copts)).map
          Trigger.option_result
        = Storyline.iter.map (fun st => st.snake_case ++ " " ++ name)
      ∧ Storyline.iter.length = 10
      ∧ (∀ st : Storyline,
          alookup (storylineTableOf (pcCharTrigger
              (processCharacter so qo co fo name copts)))
            (st.snake_case ++ " " ++ name) = some st.default_weight)) := by
  cases hpc : processCharacter so qo co fo name copts with
  | error e => rw [hpc] at h; simp [exceptOk] at h
  | ok pr =>
      obtain ⟨t, sts⟩ := pr
      rcases hres : resolveCharacter co fo name with ⟨pp, rr, cq⟩
      obtain ⟨_, _, _, _, _, hcontent, hframe, hmap, _, _⟩ :=
        (processCharacter_spec so qo co fo name copts pp rr cq hres).2 t sts hpc
      simp only [hpc, pcStoryTriggers, pcCharTrigger]
      constructor
      · intro mp hmp
        rw [hmp] at hcontent hframe hmap
        refine ⟨by simpa [storylineWeight] using hmap, ?_, ?_⟩
        · intro st w hw
          exact hcontent st w hw
        · intro st hnone
          apply hframe
          intro st2 hsome2 hkeq
          have : st = st2 := storyline_key_injective name st st2 hkeq
          subst this
          rw [show storylineWeight (some mp) st = alookup mp st.snake_case from rfl,
            hnone] at hsome2
          simp at hsome2
      · intro hmp
        rw [hmp] at hcontent hmap
        refine ⟨?_, rfl, ?_⟩
        · rw [hmap]
          congr 1
        · intro st
          exact hcontent st st.default_weight rfl

/-- Witness for C5 at a concrete input: a character with the explicit override
mapping containing only the `core` key. -/
theorem c5_storyline_override_witness :
    (∀ mp, ({ weight := 50, storyline := some [("core", 5)] }
        : CharacterInput).storyline = some mp →
      (pcStoryTriggers (processCharacter (fun k => some { id := k, story_ids := [] })
          (fun _ => none) (fun _ => none) (fun _ => []) "Mara"
          { weight := 50, storyline := some [("core", 5)] })).map
          Trigger.option_result
        = (Storyline.iter.filter (fun st => (alookup mp st.snake_case).isSome)).map
            (fun st => st.snake_case ++ " " ++ "Mara")
      ∧ (∀ st : Storyline, ∀ w, alookup mp st.snake_case = some w →
          alookup (storylineTableOf (pcCharTrigger
              (processCharacter (fun k => some { id := k, story_ids := [] })
                (fun _ => none) (fun _ => none) (fun _ => []) "Mara"
                { weight := 50, storyline := some [("core", 5)] })))
            (st.snake_case ++ " " ++ "Mara") = some w)
      ∧ (∀ st : Storyline, alookup mp st.snake_case = none →
          alookup (storylineTableOf (pcCharTrigger
              (processCharacter (fun k => some { id := k, story_ids := [] })
                (fun _ => none) (fun _ => none) (fun _ => []) "Mara"
                { weight := 50, storyline := some [("core", 5)] })))
            (st.snake_case ++ " " ++ "Mara") = none))
    ∧ (({ weight := 50, storyline := some [("core", 5)] }
        : CharacterInput).storyline = none →
      (pcStoryTriggers (processCharacter (fun k => some { id := k, story_ids := [] })
          (fun _ => none) (fun _ => none) (fun _ => []) "Mara"
          { weight := 50, storyline := some [("core", 5)] })).map
          Trigger.option_result
        = Storyline.iter.map (fun st => st.snake_case ++ " " ++ "Mara")
      ∧ Storyline.iter.length = 10
      ∧ (∀ st : Storyline,
          alookup (storylineTableOf (pcCharTrigger
              (processCharacter (fun k => some { id := k, story_ids := [] })
                (fun _ => none) (fun _ => none) (fun _ => []) "Mara"
                { weight := 50, storyline := some [("core", 5)] })))
            (st.snake_case ++ " " ++ "Mara") = some st.default_weight)) :=
  c5_storyline_override (fun k => some { id := k, story_ids := [] }) (fun _ => none)
    (fun _ => none) (fun _ => []) "Mara" { weight := 50, storyline := some [("core", 5)] }
    (by rfl)

/-- C6: a selected character name with no remote record resolves to the
designed fallback `("random", "random", None)`: the completed count is 0 for
every Storyline (no completed set), and the character trigger's profession
and race sub-tables each hold the single entry `"random"` with the default
weight 50; the run does not treat this as an error. -/
theorem c6_missing_character (so : String → Option Season) (qo : Nat → Option Quest)
    (co : String → Option Character) (fo : String → List Nat)
    (name : String) (copts : CharacterInput)
    (hco : co name = none)
    (h : exceptOk (processCharacter so qo co fo name copts) = true) :
    resolveCharacter co fo name = ("random", "random", none)
    ∧ (∀ season, countForStoryline qo season none = .ok 0)
    ∧ professionTableOf (pcCharTrigger (processCharacter so qo co fo name copts))
        = [("random", default_weight)]
    ∧ raceTableOf (pcCharTrigger (processCharacter so qo co fo name copts))
        = [("random", default_weight)]
    ∧ default_weight = 50 := by
  have hres : resolveCharacter co fo name = ("random", "random", none) := by
    simp [resolveCharacter, hco]
  cases hpc : processCharacter so qo co fo name copts with
  | error e => rw [hpc] at h; simp [exceptOk] at h
  | ok pr =>
      obtain ⟨t, sts⟩ := pr
      obtain ⟨_, _, _, hprof, hrace, _⟩ :=
        (processCharacter_spec so qo co fo name copts "random" "random" none hres).2
          t sts hpc
      refine ⟨hres, fun season => rfl, ?_, ?_, rfl⟩
      · simp only [hpc, pcCharTrigger]
        exact hprof
      · simp only [hpc, pcCharTrigger]
        exact hrace

/-- Witness for C6 at a concrete input: character `"Mara"` absent from the
remote account, remote season for every id. -/
theorem c6_missing_character_witness :
    resolveCharacter (fun _ => none) (fun _ => []) "Mara" = ("random", "random", none)
    ∧ (∀ season, countForStoryline (fun _ => none) season none = .ok 0)
    ∧ professionTableOf (pcCharTrigger (processCharacter
        (fun k => some { id := k, story_ids := [] }) (fun _ => none) (fun _ => none)
        (fun _ => []) "Mara" { weight := 50, storyline := none }))
        = [("random", default_weight)]
    ∧ raceTableOf (pcCharTrigger (processCharacter
        (fun k => some { id := k, story_ids := [] }) (fun _ => none) (fun _ => none)
        (fun _ => []) "Mara" { weight := 50, storyline := none }))
        = [("random", default_weight)]
    ∧ default_weight = 50 :=
  c6_missing_character (fun k => some { id := k, story_ids := [] }) (fun _ => none)
    (fun _ => none) (fun _ => []) "Mara" { weight := 50, storyline := none } rfl (by rfl)

/-! ## C1: completed-quest ids missing from the catalog -/

/-- C1 counterexample: a completed quest id with no entry in the quest catalog
is not silently excluded — `&quests[q]` (main.rs line 509) panics on the
absent key, aborting the run; the count the claim predicts for the same input
is a silent 0. With an empty catalog and completed set `{1}`, the count
computation aborts with the missing-quest panic instead of returning 0. -/
theorem c1_count_counterexample :
    completedCountRun (fun _ => none) { id := "s", story_ids := [] } [1]
      = .error .questMissing
    ∧ specCompletedCount (fun _ => none) { id := "s", story_ids := [] } [1] = 0 :=
  ⟨rfl, rfl⟩

theorem completedCountRun_ok_of_catalog (qo : Nat → Option Quest) (season : Season) :
    ∀ (cs : List Nat) (n : Nat), (∀ q ∈ cs, (qo q).isSome = true) →
      cs.foldl (fun acc q =>
        match acc, qo q with
        | .ok n, some quest =>
            .ok (if season.story_ids.contains quest.story_id then n + 1 else n)
        | .ok _, none => .error .questMissing
        | .error e, _ => .error e) (Except.ok n : Except PanicKind Nat)
      = .ok (n + specCompletedCount qo season cs) := by
  intro cs
  induction cs with
  | nil => intro n _; simp [specCompletedCount]
  | cons q cs ih =>
      intro n h
      have hq : (qo q).isSome = true := h q (List.mem_cons_self _ _)
      obtain ⟨quest, hquest⟩ := Option.isSome_iff_exists.mp hq
      have hrest : ∀ x ∈ cs, (qo x).isSome = true :=
        fun x hx => h x (List.mem_cons_of_mem _ hx)
      rw [List.foldl_cons]
      simp only [hquest]
      rw [ih _ hrest]
      simp only [specCompletedCount, List.filter_cons, hquest]
      cases hc : season.story_ids.contains quest.story_id
      · simp
      · simp
        omega

/-- C1 amended: when every completed quest id has an entry in the catalog, the
completion count for a Storyline equals the number of completed ids whose
catalog story-id is a member of the season's story-id set; a completed id
missing from the catalog instead aborts the run with the `&quests[q]` index
panic (see the counterexample), rather than being silently excluded. -/
theorem c1_count_with_catalog (qo : Nat → Option Quest) (season : Season)
    (completed : List Nat)
    (h : ∀ q ∈ completed, (qo q).isSome = true) :
    completedCountRun qo season completed
      = .ok (specCompletedCount qo season completed) := by
  have h2 := completedCountRun_ok_of_catalog qo season completed 0 h
  simpa [completedCountRun] using h2

/-- Witness for the amended C1 at a concrete input: a one-entry catalog
covering the one completed quest id. -/
theorem c1_count_with_catalog_witness :
    (∀ q ∈ [1],
      ((fun x => alookup [(1, ({ id := 1, name := "q", story_id := 7 } : Quest))] x)
        q).isSome = true)
    ∧ completedCountRun
        (fun x => alookup [(1, ({ id := 1, name := "q", story_id := 7 } : Quest))] x)
        { id := "s", story_ids := [7] } [1]
      = .ok (specCompletedCount
          (fun x => alookup [(1, ({ id := 1, name := "q", story_id := 7 } : Quest))] x)
          { id := "s", story_ids := [7] } [1]) :=
  ⟨by decide,
   c1_count_with_catalog
     (fun x => alookup [(1, ({ id := 1, name := "q", story_id := 7 } : Quest))] x)
     { id := "s", story_ids := [7] } [1] (by decide)⟩

/-! ## C2: the max_quests subtraction -/

/-- C2 counterexample: with 17 completed quests counted against
Heart of Thorns (static max 16), the `usize` subtraction
`storyline.max_quests() - completed_count` underflows: the step aborts with an
arithmetic-overflow panic instead of passing a zero-or-negative value through
(on `usize`, the result could never be negative in any build mode). -/
theorem c2_max_quests_counterexample :
    countForStoryline (fun q => some { id := q, name := "q", story_id := 1 })
      { id := "B8901E58-DC9D-4525-ADB2-79C93593291E", story_ids := [1] }
      (some [1, 2, 3, 4, 5, 6, 7, 8, 9, 10, 11, 12, 13, 14, 15, 16, 17]) = .ok 17
    ∧ Storyline.HeartOfThorns.max_quests = 16
    ∧ storylineStep
        (fun _ => some { id := "B8901E58-DC9D-4525-ADB2-79C93593291E", story_ids := [1] })
        (fun q => some { id := q, name := "q", story_id := 1 })
        (some [1, 2, 3, 4, 5, 6, 7, 8, 9, 10, 11, 12, 13, 14, 15, 16, 17]) "Mara" none
        (initialCharTrigger "Mara" "random" "random", []) Storyline.HeartOfThorns
      = .error .maxQuestsUnderflow :=
  ⟨rfl, rfl, rfl⟩

/-- C2 amended: the storyline trigger's `max_quests` option equals
`storyline.max_quests - completed_count` whenever the completed count does not
exceed the static maximum (so the value may be zero but never negative); when
the count exceeds the maximum, the unsigned subtraction underflows and the
computation panics (or, without overflow checks, wraps to a huge positive
value) instead of passing a negative value through. -/
theorem c2_max_quests_amended (so : String → Option Season) (qo : Nat → Option Quest)
    (completed : Option (List Nat)) (name : String)
    (opts : Option (List (String × Nat))) (t : Trigger) (acc : List Trigger)
    (st : Storyline) (w : Nat) (season : Season) (n : Nat)
    (inner : List (String × OptionValue)) (m : List (String × Nat))
    (hw : storylineWeight opts st = some w) (hs : so st.id = some season)
    (hc : countForStoryline qo season completed = .ok n)
    (h1 : alookup t.options "Guild Wars 2" = some inner)
    (h2 : alookup inner "storyline" = some (.Table m)) :
    (n ≤ st.max_quests →
      ∃ t2, storylineStep so qo completed name opts (t, acc) st
        = .ok (t2, acc ++ [mkQuestTrigger st (st.snake_case ++ " " ++ name)
            (st.max_quests - n)]))
    ∧ (¬ n ≤ st.max_quests →
      storylineStep so qo completed name opts (t, acc) st
        = .error .maxQuestsUnderflow) := by
  constructor
  · intro hle
    exact ⟨_, storylineStep_ok so qo completed name opts t acc st w season n inner m
      hw hs hc h1 h2 hle⟩
  · intro hgt
    exact storylineStep_underflow so qo completed name opts t acc st w season n inner m
      hw hs hc h1 h2 hgt

/-- Witness for the amended C2 at a concrete input: 3 completed Core quests
against the static maximum 49. -/
theorem c2_max_quests_amended_witness :
    (3 ≤ Storyline.Core.max_quests)
    ∧ ((3 ≤ Storyline.Core.max_quests →
        ∃ t2, storylineStep (fun _ => some { id := "x", story_ids := [1] })
            (fun q => some { id := q, name := "q", story_id := 1 })
            (some [1, 2, 3]) "Mara" none
            (initialCharTrigger "Mara" "random" "random", []) Storyline.Core
          = .ok (t2, [] ++ [mkQuestTrigger Storyline.Core
              (Storyline.Core.snake_case ++ " " ++ "Mara")
              (Storyline.Core.max_quests - 3)]))
      ∧ (¬ 3 ≤ Storyline.Core.max_quests →
        storylineStep (fun _ => some { id := "x", story_ids := [1] })
            (fun q => some { id := q, name := "q", story_id := 1 })
            (some [1, 2, 3]) "Mara" none
            (initialCharTrigger "Mara" "random" "random", []) Storyline.Core
          = .error .maxQuestsUnderflow)) :=
  ⟨by decide,
   c2_max_quests_amended (fun _ => some { id := "x", story_ids := [1] })
     (fun q => some { id := q, name := "q", story_id := 1 })
     (some [1, 2, 3]) "Mara" none
     (initialCharTrigger "Mara" "random" "random") []
     Storyline.Core 1 { id := "x", story_ids := [1] } 3
     [("storyline", OptionValue.Table []),
      ("character_race", OptionValue.Table [("random", default_weight)]),
      ("character_profession", OptionValue.Table [("random", default_weight)])]
     []
     rfl rfl rfl rfl rfl⟩

/-! ## C3: determinism of the output document -/

/-- C3 counterexample: the pipeline consumes the character selection in the
iteration order of `input.characters` (a `HashMap`, whose iteration order is
unspecified and varies between processes), and the trigger list follows that
order; two runs over the same selection map whose iteration orders differ
produce output documents that are not byte-identical — here the same
two-character selection enumerated in the two orders yields trigger lists in
different orders. -/
theorem c3_byte_identity_counterexample :
    [("A", ({ weight := 50, storyline := some [("core", 5)] } : CharacterInput)),
     ("B", { weight := 50, storyline := some [("core", 5)] })].Perm
      [("B", ({ weight := 50, storyline := some [("core", 5)] } : CharacterInput)),
       ("A", { weight := 50, storyline := some [("core", 5)] })]
    ∧ (okTriggers (aggregate (fun k => some { id := k, story_ids := [] })
          (fun _ => none) (fun _ => none) (fun _ => [])
          [("A", { weight := 50, storyline := some [("core", 5)] }),
           ("B", { weight := 50, storyline := some [("core", 5)] })])).map
        Trigger.option_result = ["A", "core A", "B", "core B"]
    ∧ (okTriggers (aggregate (fun k => some { id := k, story_ids := [] })
          (fun _ => none) (fun _ => none) (fun _ => [])
          [("B", { weight := 50, storyline := some [("core", 5)] }),
           ("A", { weight := 50, storyline := some [("core", 5)] })])).map
        Trigger.option_result = ["B", "core B", "A", "core A"]
    ∧ (["A", "core A", "B", "core B"] : List String)
        ≠ ["B", "core B", "A", "core A"] := by
  refine ⟨List.Perm.swap _ _ _, rfl, rfl, by decide⟩

/-- C3 amended: with the input character list fixed (same selection in the
same iteration order) and fixed remote responses, the output document does
not depend on the order in which the concurrent season, quest and character
fetches complete: the fan-in results are keyed into maps, and with distinct
keys every completion permutation yields the same lookups and hence the same
output document. Byte-identity across runs additionally requires fixed map
iteration orders, which `HashMap` does not guarantee (see the
counterexample). -/
theorem c3_fetch_order_determinism (ss₁ ss₂ : List Season) (qs₁ qs₂ : List Quest)
    (cs₁ cs₂ : List Character) (fo : String → List Nat)
    (ics : List (String × CharacterInput))
    (hs : ss₁.Perm ss₂) (hq : qs₁.Perm qs₂) (hc : cs₁.Perm cs₂)
    (hns : (ss₁.map Season.id).Nodup) (hnq : (qs₁.map Quest.id).Nodup)
    (hnc : (cs₁.map Character.name).Nodup) :
    aggregate (seasonLookup ss₁) (questLookup qs₁) (characterLookup cs₁) fo ics
      = aggregate (seasonLookup ss₂) (questLookup qs₂) (characterLookup cs₂) fo ics := by
  have e1 : seasonLookup ss₁ = seasonLookup ss₂ :=
    funext fun k => buildKeyed_lookup_perm Season.id ss₁ ss₂ hs hns k
  have e2 : questLookup qs₁ = questLookup qs₂ :=
    funext fun k => buildKeyed_lookup_perm Quest.id qs₁ qs₂ hq hnq k
  have e3 : characterLookup cs₁ = characterLookup cs₂ :=
    funext fun k => buildKeyed_lookup_perm Character.name cs₁ cs₂ hc hnc k
  rw [e1, e2, e3]

/-- Witness for the amended C3 at a concrete input: two seasons, two quests
and two characters each arriving in the two possible completion orders. -/
theorem c3_fetch_order_determinism_witness :
    aggregate
      (seasonLookup [{ id := "X", story_ids := [] }, { id := "Y", story_ids := [] }])
      (questLookup [{ id := 1, name := "a", story_id := 1 },
        { id := 2, name := "b", story_id := 2 }])
      (characterLookup [{ name := "A", race := "asura", profession := "thief" },
        { name := "B", race := "norn", profession := "warrior" }])
      (fun _ => []) [("A", { weight := 50, storyline := some [] })]
    = aggregate
      (seasonLookup [{ id := "Y", story_ids := [] }, { id := "X", story_ids := [] }])
      (questLookup [{ id := 2, name := "b", story_id := 2 },
        { id := 1, name := "a", story_id := 1 }])
      (characterLookup [{ name := "B", race := "norn", profession := "warrior" },
        { name := "A", race := "asura", profession := "thief" }])
      (fun _ => []) [("A", { weight := 50, storyline := some [] })] :=
  c3_fetch_order_determinism
    [{ id := "X", story_ids := [] }, { id := "Y", story_ids := [] }]
    [{ id := "Y", story_ids := [] }, { id := "X", story_ids := [] }]
    [{ id := 1, name := "a", story_id := 1 }, { id := 2, name := "b", story_id := 2 }]
    [{ id := 2, name := "b", story_id := 2 }, { id := 1, name := "a", story_id := 1 }]
    [{ name := "A", race := "asura", profession := "thief" },
     { name := "B", race := "norn", profession := "warrior" }]
    [{ name := "B", race := "norn", profession := "warrior" },
     { name := "A", race := "asura", profession := "thief" }]
    (fun _ => []) [("A", { weight := 50, storyline := some [] })]
    (List.Perm.swap _ _ _) (List.Perm.swap _ _ _) (List.Perm.swap _ _ _)
    (by decide) (by decide) (by decide)
